import Mathlib

/-!
Shallow embedding of `src/app.py` (Flask food-ordering system), covering the
session cart, checkout, order-confirmation, order-status update and admin
add-item handlers, together with the relational rows they read and write.

Python floats are modelled as rationals (`ℚ`): no property below depends on
rounding behaviour. Python ints are `Int` (or `Nat` where the source value is
a primary key or a Flask `<int:...>` URL converter value, which only matches
nonnegative digit strings). `request.form.get(k)` is an `Option String`
(`none` when the field is absent). Each handler returns its new state
together with an outcome value recording which branch (flash + redirect,
404 abort, or an uncaught Python exception) the source takes.
-/

set_option autoImplicit false

namespace FoodOrdering

/-- A session cart entry, as built by `add_to_cart` (app.py lines 159-165):
a dict with keys id, name, price, quantity, image. -/
structure CartEntry where
  id : Nat
  name : String
  price : ℚ
  quantity : Int
  image : Option String
  deriving Repr, DecidableEq

/-- Row of the `MenuItem` table (app.py lines 32-39). `category_id` is an
`Int` because `add_item` stores `int(form['category_id'])`, which may be
negative. -/
structure MenuItem where
  id : Nat
  name : String
  description : Option String
  price : ℚ
  image : Option String
  category_id : Int
  deriving Repr, DecidableEq

/-- Row of the `Order` table (app.py lines 41-47); `status` defaults to
`"Pending"` on creation. -/
structure Order where
  id : Nat
  user_id : Nat
  total : ℚ
  status : String
  deriving Repr, DecidableEq

/-- Row of the `OrderItem` table (app.py lines 49-54); `price` is the
snapshot copied from the cart entry at checkout. -/
structure OrderItem where
  id : Nat
  order_id : Nat
  menu_item_id : Nat
  quantity : Int
  price : ℚ
  deriving Repr, DecidableEq

/-- The persisted store: the tables the modelled handlers touch, plus the
autoincrement counters the database assigns to new rows. -/
structure Store where
  menu_items : List MenuItem
  orders : List Order
  order_items : List OrderItem
  nextMenuItemId : Nat
  nextOrderId : Nat
  nextOrderItemId : Nat
  deriving Repr, DecidableEq

/-- `sum(item['price'] * item['quantity'] for item in cart)`
(app.py lines 174 and 205). -/
def cartTotal (cart : List CartEntry) : ℚ :=
  (cart.map (fun item => item.price * (item.quantity : ℚ))).sum

/-- `MenuItem.query.get(item_id)`: first row with the given primary key. -/
def findMenuItem (s : Store) (item_id : Nat) : Option MenuItem :=
  s.menu_items.find? (fun m => m.id = item_id)

/-- `Order.query.get(order_id)`: first row with the given primary key. -/
def findOrder (s : Store) (order_id : Nat) : Option Order :=
  s.orders.find? (fun o => o.id = order_id)

/-- The `for cart_item in cart` loop of `add_to_cart` (app.py lines 151-156):
bump the quantity of the first entry whose `id` matches and return early;
`none` when no entry matches (the loop falls through). -/
def incFirst (item_id : Nat) : List CartEntry → Option (List CartEntry)
  | [] => none
  | e :: rest =>
    if e.id = item_id then
      some ({ e with quantity := e.quantity + 1 } :: rest)
    else
      (incFirst item_id rest).map (e :: ·)

/-- `add_to_cart(item_id)` (app.py lines 141-168). Returns `none` for the
`get_or_404` abort when the menu item does not exist, otherwise the new
cart: the first matching entry incremented, or a fresh entry with
quantity 1 appended. -/
def add_to_cart (s : Store) (cart : List CartEntry) (item_id : Nat) :
    Option (List CartEntry) :=
  match findMenuItem s item_id with
  | none => none
  | some item =>
    match incFirst item.id cart with
    | some cart2 => some cart2
    | none =>
      some (cart ++ [{ id := item.id, name := item.name, price := item.price,
                       quantity := 1, image := item.image }])

/-- Result of `update_cart`: the new cart, and whether the
`flash('Cart updated')` on line 194 ran. The final redirect to the cart
view (line 195) is unconditional in the source. -/
structure UpdateCartResult where
  cart : List CartEntry
  flashed : Bool
  deriving Repr, DecidableEq

/-- `update_cart(index)` (app.py lines 177-195). `index` comes from the
Flask `<int:index>` converter, hence a `Nat`. `action` is
`request.form.get('action')`. Out-of-range indices skip the whole body;
unknown actions fall through all three branches but still flash. -/
def update_cart (cart : List CartEntry) (index : Nat) (action : Option String) :
    UpdateCartResult :=
  if h : index < cart.length then
    let e := cart.get ⟨index, h⟩
    if action = some "increase" then
      { cart := cart.set index { e with quantity := e.quantity + 1 }, flashed := true }
    else if action = some "decrease" then
      let cart2 := cart.set index { e with quantity := e.quantity - 1 }
      if e.quantity - 1 ≤ 0 then
        { cart := cart2.eraseIdx index, flashed := true }
      else
        { cart := cart2, flashed := true }
    else if action = some "remove" then
      { cart := cart.eraseIdx index, flashed := true }
    else
      { cart := cart, flashed := true }
  else
    { cart := cart, flashed := false }

/-- Outcome of `checkout`: redirect to the menu with the empty-cart warning,
or redirect to the confirmation page of the freshly created order. -/
inductive CheckoutOutcome where
  | emptyCart
  | placed (order_id : Nat)
  deriving Repr, DecidableEq

/-- The `for item in cart` loop of `checkout` (app.py lines 210-217): one
`OrderItem` per cart entry, in cart order, ids assigned consecutively by
the database. -/
def mkOrderItems (order_id : Nat) : Nat → List CartEntry → List OrderItem
  | _, [] => []
  | nextId, item :: rest =>
    { id := nextId, order_id := order_id, menu_item_id := item.id,
      quantity := item.quantity, price := item.price }
      :: mkOrderItems order_id (nextId + 1) rest

/-- `checkout()` (app.py lines 197-222). Returns the new store, the new
session cart (`session.pop('cart', None)` leaves no cart, modelled as `[]`),
and the outcome. An empty cart short-circuits before any write. -/
def checkout (s : Store) (cart : List CartEntry) (user_id : Nat) :
    Store × List CartEntry × CheckoutOutcome :=
  if cart = [] then
    (s, cart, .emptyCart)
  else
    let total := cartTotal cart
    let oid := s.nextOrderId
    let order : Order := { id := oid, user_id := user_id, total := total,
                           status := "Pending" }
    let newItems := mkOrderItems oid s.nextOrderItemId cart
    ({ s with orders := s.orders ++ [order],
              order_items := s.order_items ++ newItems,
              nextOrderId := oid + 1,
              nextOrderItemId := s.nextOrderItemId + cart.length },
     [], .placed oid)

/-- Outcome of `order_confirmation`: `get_or_404` abort, the authorization
flash + redirect to the menu, or rendering the page for the order. -/
inductive ConfirmOutcome where
  | notFound
  | authRedirect
  | page (o : Order)
  deriving Repr, DecidableEq

/-- `order_confirmation(order_id)` (app.py lines 224-232): 404 when the
order does not exist, authorization redirect when it belongs to another
user, else the confirmation page. -/
def order_confirmation (s : Store) (user_id : Nat) (order_id : Nat) :
    ConfirmOutcome :=
  match findOrder s order_id with
  | none => .notFound
  | some o => if o.user_id ≠ user_id then .authRedirect else .page o

/-- Outcome of `update_order_status`: `get_or_404` abort, successful update
flash, or the `'Invalid status'` flash with no write. -/
inductive StatusOutcome where
  | notFound
  | updated
  | invalid
  deriving Repr, DecidableEq

/-- The literal list `['Pending', 'Completed', 'Cancelled']` of app.py
line 324. -/
def allowedStatuses : List String := ["Pending", "Completed", "Cancelled"]

/-- `update_order_status(order_id)` (app.py lines 318-331). `new_status` is
`request.form.get('status')`; `None in [...]` is false in Python, so a
missing field takes the invalid branch. The write sets the status of the
row with the given primary key, whatever its current status. -/
def update_order_status (s : Store) (order_id : Nat)
    (new_status : Option String) : Store × StatusOutcome :=
  match findOrder s order_id with
  | none => (s, .notFound)
  | some _ =>
    match new_status with
    | some st =>
      if st ∈ allowedStatuses then
        ({ s with orders :=
            s.orders.map (fun o => if o.id = order_id then { o with status := st } else o) },
         .updated)
      else
        (s, .invalid)
    | none => (s, .invalid)

/-- A Python exception class, for the uncaught errors `float(...)` and
`int(...)` can raise inside `add_item`. -/
inductive PyErr where
  | typeError
  | valueError
  deriving Repr, DecidableEq

/-- Numeric value of a digit string (caller guarantees all characters are
digits). -/
def digitsVal (cs : List Char) : Nat :=
  cs.foldl (fun n c => 10 * n + (c.toNat - 48)) 0

/-- `float(s)` on a decimal literal: optional sign, digits with an optional
fractional part, at least one digit overall. The exotic spellings Python
also accepts (exponents, `inf`, `nan`, surrounding whitespace, underscores)
are not modelled; no claim depends on them. `none` means `ValueError`. -/
def pyFloatOfString (s : String) : Option ℚ :=
  let (neg, body) : Bool × List Char :=
    match s.data with
    | '-' :: rest => (true, rest)
    | '+' :: rest => (false, rest)
    | cs => (false, cs)
  let signed : ℚ → ℚ := fun q => if neg then -q else q
  let intPart := body.takeWhile (· ≠ '.')
  match body.dropWhile (· ≠ '.') with
  | [] =>
    if body ≠ [] ∧ body.all Char.isDigit then
      some (signed (digitsVal body : ℚ))
    else none
  | _ :: frac =>
    if (intPart ≠ [] ∨ frac ≠ []) ∧ intPart.all Char.isDigit ∧ frac.all Char.isDigit then
      some (signed ((digitsVal intPart : ℚ) + (digitsVal frac : ℚ) / (10 : ℚ) ^ frac.length))
    else none

/-- `float(request.form.get('price'))` (app.py line 285): `float(None)`
raises `TypeError`; a non-numeric string raises `ValueError`. -/
def pyFloat : Option String → Except PyErr ℚ
  | none => .error .typeError
  | some s =>
    match pyFloatOfString s with
    | some q => .ok q
    | none => .error .valueError

/-- `int(s)` on a decimal integer literal (optional sign, digits only). -/
def pyIntOfString (s : String) : Option Int :=
  let (neg, body) : Bool × List Char :=
    match s.data with
    | '-' :: rest => (true, rest)
    | '+' :: rest => (false, rest)
    | cs => (false, cs)
  if body ≠ [] ∧ body.all Char.isDigit then
    some (if neg then -(digitsVal body : Int) else (digitsVal body : Int))
  else none

/-- `int(request.form.get('category_id'))` (app.py line 286). -/
def pyInt : Option String → Except PyErr Int
  | none => .error .typeError
  | some s =>
    match pyIntOfString s with
    | some n => .ok n
    | none => .error .valueError

/-- Python truthiness of `request.form.get(k)`: `None` and `''` are falsy. -/
def truthyStr : Option String → Bool
  | none => false
  | some s => s ≠ ""

/-- The form fields `add_item` reads. -/
structure AddItemForm where
  name : Option String
  description : Option String
  price : Option String
  category_id : Option String
  deriving Repr, DecidableEq

/-- Outcome of `add_item`: an uncaught Python exception from parsing, the
`'Name, price and category are required'` flash + redirect, or a stored
item. -/
inductive AddItemOutcome where
  | raised (e : PyErr)
  | validationRedirect
  | added (item : MenuItem)
  deriving Repr, DecidableEq

/-- `add_item()` (app.py lines 280-302). The source parses
`float(form.get('price'))` and `int(form.get('category_id'))` *before* the
`if not name or not price or not category_id` check, so a missing or
malformed price/category field raises out of the handler; the check then
rejects falsy values (empty/missing name, price `0.0`, category id `0`),
and anything else — negative prices included — is stored with the fixed
image `'default.jpg'`. -/
def add_item (s : Store) (f : AddItemForm) : Store × AddItemOutcome :=
  match pyFloat f.price with
  | .error e => (s, .raised e)
  | .ok price =>
    match pyInt f.category_id with
    | .error e => (s, .raised e)
    | .ok category_id =>
      if ¬ truthyStr f.name ∨ price = 0 ∨ category_id = 0 then
        (s, .validationRedirect)
      else
        let item : MenuItem :=
          { id := s.nextMenuItemId, name := f.name.getD "",
            description := f.description, price := price,
            image := some "default.jpg", category_id := category_id }
        ({ s with menu_items := s.menu_items ++ [item],
                  nextMenuItemId := s.nextMenuItemId + 1 },
         .added item)

/-! ### Helper lemmas -/

/-- Setting and then erasing the same index is the same as just erasing it. -/
theorem eraseIdx_set_same {α : Type} :
    ∀ (l : List α) (i : Nat) (b : α), (l.set i b).eraseIdx i = l.eraseIdx i
  | [], _, _ => rfl
  | _ :: _, 0, _ => rfl
  | x :: xs, i + 1, b => by
    simp only [List.set_cons_succ, List.eraseIdx_cons_succ, eraseIdx_set_same xs i b]

/-! ### C4: checkout with an empty cart -/

/-- C4: whenever the session cart is empty, `checkout` creates no `Order`
and no `OrderItem` — the whole store is returned unchanged — the cart stays
empty, and the handler takes the warning redirect back to the menu. -/
theorem checkout_empty_cart (s : Store) (uid : Nat) :
    checkout s [] uid = (s, [], CheckoutOutcome.emptyCart) := by
  simp [checkout]

/-! ### C10: update_cart with an out-of-range index -/

/-- C10: for every cart, every index at or beyond the cart's length and
every action value, `update_cart` leaves the cart unchanged and skips the
flash; the redirect to the cart view is unconditional in the source, and
the handler never raises. -/
theorem update_cart_out_of_range (cart : List CartEntry) (index : Nat)
    (action : Option String) (h : cart.length ≤ index) :
    update_cart cart index action = { cart := cart, flashed := false } := by
  simp [update_cart, Nat.not_lt.mpr h]

/-- Witness for C10 at a concrete cart and index. -/
theorem update_cart_out_of_range_witness :
    update_cart [{ id := 1, name := "A", price := 5, quantity := 2, image := none }] 3
        (some "remove") =
      { cart := [{ id := 1, name := "A", price := 5, quantity := 2, image := none }],
        flashed := false } :=
  update_cart_out_of_range _ 3 (some "remove") (by decide)

/-! ### C3: update_order_status with an invalid status value -/

/-- C3: for every existing order and every submitted status outside
`{Pending, Completed, Cancelled}` (a missing field included), the handler
flashes the `'Invalid status'` error and leaves the whole store — the
order's status in particular — unchanged. -/
theorem update_order_status_invalid (s : Store) (oid : Nat)
    (new_status : Option String) (o : Order) (ho : findOrder s oid = some o)
    (hv : ∀ st, new_status = some st → st ∉ allowedStatuses) :
    update_order_status s oid new_status = (s, StatusOutcome.invalid) := by
  unfold update_order_status
  rw [ho]
  cases new_status with
  | none => rfl
  | some st => simp [hv st rfl]

/-- Witness for C3: the status value `"Shipped"` is rejected and the store
is unchanged. -/
theorem update_order_status_invalid_witness :
    update_order_status ⟨[], [⟨1, 1, 10, "Pending"⟩], [], 1, 2, 1⟩ 1 (some "Shipped") =
      (⟨[], [⟨1, 1, 10, "Pending"⟩], [], 1, 2, 1⟩, StatusOutcome.invalid) :=
  update_order_status_invalid _ 1 (some "Shipped") ⟨1, 1, 10, "Pending"⟩ (by decide)
    (by intro st hst; injection hst with h; subst h; decide)

/-! ### C2: the order-status state machine -/

/-- C2 counterexample: the claim says Completed is terminal, but on a store
whose only order is Completed, requesting the status `"Pending"` succeeds
and rewrites the order back to Pending. -/
theorem update_order_status_completed_not_terminal :
    (update_order_status ⟨[], [⟨1, 1, 10, "Completed"⟩], [], 1, 2, 1⟩ 1
        (some "Pending")).1.orders = [⟨1, 1, 10, "Pending"⟩] ∧
    (update_order_status ⟨[], [⟨1, 1, 10, "Completed"⟩], [], 1, 2, 1⟩ 1
        (some "Pending")).2 = StatusOutcome.updated := by
  constructor <;> decide

/-- C2 amended: `update_order_status` enforces no state machine at all
among the three allowed values — for every existing order and every
requested status in `{Pending, Completed, Cancelled}`, the order's status
becomes the requested value regardless of its current status (so Completed
and Cancelled are not terminal). -/
theorem update_order_status_any_transition (s : Store) (oid : Nat) (st : String)
    (o : Order) (ho : findOrder s oid = some o) (hst : st ∈ allowedStatuses) :
    (update_order_status s oid (some st)).2 = StatusOutcome.updated ∧
    ∀ o' ∈ (update_order_status s oid (some st)).1.orders,
      o'.id = oid → o'.status = st := by
  unfold update_order_status
  rw [ho]
  dsimp only
  rw [if_pos hst]
  refine ⟨rfl, ?_⟩
  intro o' ho' hid
  simp only [List.mem_map] at ho'
  obtain ⟨a, _, ha⟩ := ho'
  by_cases h : a.id = oid
  · simp [h] at ha
    rw [← ha]
  · simp [h] at ha
    rw [← ha] at hid
    exact absurd hid h

/-- Witness for C2's amended theorem: a Completed order is rewritten to
Pending. -/
theorem update_order_status_any_transition_witness :
    (update_order_status ⟨[], [⟨1, 1, 10, "Completed"⟩], [], 1, 2, 1⟩ 1
        (some "Pending")).2 = StatusOutcome.updated :=
  (update_order_status_any_transition _ 1 "Pending" ⟨1, 1, 10, "Completed"⟩
    (by decide) (by decide)).1

/-! ### C1: successful checkout -/

/-- The relation between a cart entry and the order item the checkout loop
writes for it: same menu-item id, same quantity, the snapshotted price, and
the new order's id. -/
def ItemSnapshot (oid : Nat) (e : CartEntry) (it : OrderItem) : Prop :=
  it.order_id = oid ∧ it.menu_item_id = e.id ∧
    it.quantity = e.quantity ∧ it.price = e.price

/-- Every order item produced by the checkout loop is the snapshot of its
cart entry, entry by entry. -/
theorem mkOrderItems_forall2 (oid : Nat) :
    ∀ (nextId : Nat) (cart : List CartEntry),
      List.Forall₂ (ItemSnapshot oid) cart (mkOrderItems oid nextId cart)
  | _, [] => List.Forall₂.nil
  | nextId, _ :: rest =>
    List.Forall₂.cons ⟨rfl, rfl, rfl, rfl⟩ (mkOrderItems_forall2 oid (nextId + 1) rest)

/-- C1: for every non-empty cart, checkout empties the session cart,
appends exactly one new `Order` row — with status `"Pending"` and total
equal to the pre-checkout cart total — redirects to that order's
confirmation, and appends exactly one `OrderItem` row per cart entry, each
carrying the entry's quantity and snapshotted price. -/
theorem checkout_nonempty_spec (s : Store) (cart : List CartEntry) (uid : Nat)
    (h : cart ≠ []) :
    (checkout s cart uid).2.1 = [] ∧
    ∃ oid,
      (checkout s cart uid).2.2 = CheckoutOutcome.placed oid ∧
      (checkout s cart uid).1.orders =
        s.orders ++
          [{ id := oid, user_id := uid, total := cartTotal cart, status := "Pending" }] ∧
      ∃ newItems,
        (checkout s cart uid).1.order_items = s.order_items ++ newItems ∧
        newItems.length = cart.length ∧
        List.Forall₂ (ItemSnapshot oid) cart newItems := by
  unfold checkout
  rw [if_neg h]
  dsimp only
  exact ⟨rfl, s.nextOrderId, rfl, rfl,
    mkOrderItems s.nextOrderId s.nextOrderItemId cart, rfl,
    (mkOrderItems_forall2 s.nextOrderId s.nextOrderItemId cart).length_eq.symm,
    mkOrderItems_forall2 s.nextOrderId s.nextOrderItemId cart⟩

/-- A concrete two-entry cart (the spec's worked example: 5.00 × 2 plus
3.50 × 1). -/
def exampleCart : List CartEntry :=
  [{ id := 1, name := "A", price := 5, quantity := 2, image := none },
   { id := 2, name := "B", price := 7/2, quantity := 1, image := none }]

/-- A concrete empty store. -/
def emptyStore : Store :=
  { menu_items := [], orders := [], order_items := [],
    nextMenuItemId := 1, nextOrderId := 1, nextOrderItemId := 1 }

/-- Witness for C1 at a concrete store and the spec's two-entry example
cart. -/
theorem checkout_nonempty_spec_witness :
    (checkout emptyStore exampleCart 4).2.1 = [] ∧
    ∃ oid,
      (checkout emptyStore exampleCart 4).2.2 = CheckoutOutcome.placed oid ∧
      (checkout emptyStore exampleCart 4).1.orders =
        emptyStore.orders ++
          [{ id := oid, user_id := 4, total := cartTotal exampleCart,
             status := "Pending" }] ∧
      ∃ newItems,
        (checkout emptyStore exampleCart 4).1.order_items =
          emptyStore.order_items ++ newItems ∧
        newItems.length = exampleCart.length ∧
        List.Forall₂ (ItemSnapshot oid) exampleCart newItems :=
  checkout_nonempty_spec emptyStore exampleCart 4 (by decide)

/-! ### C7: order confirmation access control -/

/-- C7 counterexample: the claim promises an authorization error with a
redirect "regardless of whether the order exists", but on an empty store a
request for order 5 takes the `get_or_404` branch — a 404 response, not
the authorization redirect. -/
theorem order_confirmation_missing_order_404 :
    order_confirmation emptyStore 1 5 = ConfirmOutcome.notFound ∧
    ConfirmOutcome.notFound ≠ ConfirmOutcome.authRedirect :=
  ⟨rfl, by decide⟩

/-- C7 amended: a non-owner is always denied the page, but the denial takes
two forms — a 404 when the order does not exist, and the authorization
flash + redirect when it exists and belongs to another user; the
confirmation page is only ever rendered for the order's owner. -/
theorem order_confirmation_access (s : Store) (uid oid : Nat) :
    (findOrder s oid = none →
      order_confirmation s uid oid = ConfirmOutcome.notFound) ∧
    (∀ o, findOrder s oid = some o → o.user_id ≠ uid →
      order_confirmation s uid oid = ConfirmOutcome.authRedirect) ∧
    (∀ o, order_confirmation s uid oid = ConfirmOutcome.page o →
      o.user_id = uid) := by
  unfold order_confirmation
  refine ⟨?_, ?_, ?_⟩
  · intro h
    rw [h]
  · intro o h hne
    rw [h]
    dsimp only
    rw [if_pos hne]
  · intro o h
    cases hf : findOrder s oid with
    | none =>
      rw [hf] at h
      exact absurd h (by simp)
    | some o' =>
      rw [hf] at h
      dsimp only at h
      by_cases hu : o'.user_id ≠ uid
      · rw [if_pos hu] at h
        exact absurd h (by simp)
      · rw [if_neg hu] at h
        injection h with h'
        push_neg at hu
        rw [← h']
        exact hu

/-- Witness for C7's amended theorem: user 2 requesting user 7's existing
order is redirected with the authorization error. -/
theorem order_confirmation_access_witness :
    order_confirmation ⟨[], [⟨1, 7, 10, "Pending"⟩], [], 1, 2, 1⟩ 2 1 =
      ConfirmOutcome.authRedirect :=
  (order_confirmation_access ⟨[], [⟨1, 7, 10, "Pending"⟩], [], 1, 2, 1⟩ 2 1).2.1
    ⟨1, 7, 10, "Pending"⟩ (by decide) (by decide)

/-! ### C8: prices accepted by add_item -/

/-- C8 counterexample: the form price `"-1"` passes the `not price` check
(only `0.0` is falsy), so the item is stored with price `-1`, which is not
strictly positive. -/
theorem add_item_negative_price_stored :
    ((add_item emptyStore
        { name := some "Burger", description := none, price := some "-1",
          category_id := some "2" }).2 =
      AddItemOutcome.added
        { id := 1, name := "Burger", description := none, price := -1,
          image := some "default.jpg", category_id := 2 }) ∧
    ¬ (0 : ℚ) < -1 := by
  refine ⟨by decide, by norm_num⟩

/-- C8 amended: every item stored by `add_item` has a *nonzero* price (a
price parsing to `0.0` is falsy and takes the validation redirect), but the
price need not be positive — negative values are accepted and stored. -/
theorem add_item_stored_price_nonzero (s s' : Store) (f : AddItemForm)
    (it : MenuItem) (h : add_item s f = (s', AddItemOutcome.added it)) :
    it.price ≠ 0 := by
  unfold add_item at h
  cases hp : pyFloat f.price with
  | error e =>
    rw [hp] at h
    exact absurd (congrArg Prod.snd h) (by simp)
  | ok price =>
    rw [hp] at h
    dsimp only at h
    cases hc : pyInt f.category_id with
    | error e =>
      rw [hc] at h
      exact absurd (congrArg Prod.snd h) (by simp)
    | ok cid =>
      rw [hc] at h
      dsimp only at h
      by_cases hcond : ¬ truthyStr f.name ∨ price = 0 ∨ cid = 0
      · rw [if_pos hcond] at h
        exact absurd (congrArg Prod.snd h) (by simp)
      · rw [if_neg hcond] at h
        push_neg at hcond
        have h2 := congrArg Prod.snd h
        dsimp only at h2
        injection h2 with h3
        rw [← h3]
        exact hcond.2.1

/-- Witness for C8's amended theorem at the concrete negative-price form. -/
theorem add_item_stored_price_nonzero_witness :
    MenuItem.price
        { id := 1, name := "Burger", description := none, price := -1,
          image := some "default.jpg", category_id := 2 } ≠ 0 :=
  add_item_stored_price_nonzero emptyStore
    { menu_items := [{ id := 1, name := "Burger", description := none, price := -1,
                       image := some "default.jpg", category_id := 2 }],
      orders := [], order_items := [], nextMenuItemId := 2, nextOrderId := 1,
      nextOrderItemId := 1 }
    { name := some "Burger", description := none, price := some "-1",
      category_id := some "2" }
    { id := 1, name := "Burger", description := none, price := -1,
      image := some "default.jpg", category_id := 2 }
    (by decide)

/-! ### C9: add_item on a missing required field -/

/-- C9: contrary to the spec's "all validation errors redirect with a
message", a form with no price field reaches `float(None)` *before* the
validation check and raises an uncaught `TypeError` — the store is
untouched but no redirect or flash happens. -/
theorem add_item_missing_price_raises :
    add_item emptyStore
      { name := some "Pizza", description := none, price := none,
        category_id := some "2" } =
      (emptyStore, AddItemOutcome.raised PyErr.typeError) := rfl

/-! ### Cart lemmas shared by C5 and C6 -/

/-- If no cart entry carries the item's id, the `add_to_cart` loop falls
through. -/
theorem incFirst_none_of_not_mem (item_id : Nat) (cart : List CartEntry)
    (h : ∀ e ∈ cart, e.id ≠ item_id) : incFirst item_id cart = none := by
  induction cart with
  | nil => rfl
  | cons e rest ih =>
    simp only [incFirst]
    rw [if_neg (h e (List.mem_cons_self e rest)),
      ih (fun x hx => h x (List.mem_cons_of_mem e hx))]
    rfl

/-- If the `add_to_cart` loop falls through, no cart entry carries the
item's id. -/
theorem not_mem_of_incFirst_none (item_id : Nat) (cart : List CartEntry)
    (h : incFirst item_id cart = none) : ∀ e ∈ cart, e.id ≠ item_id := by
  induction cart with
  | nil => intro e he; cases he
  | cons e rest ih =>
    by_cases he : e.id = item_id
    · simp only [incFirst, if_pos he] at h
      exact absurd h (by simp)
    · simp only [incFirst, if_neg he, Option.map_eq_none'] at h
      intro x hx
      rcases List.mem_cons.mp hx with rfl | hx'
      · exact he
      · exact ih h x hx'

/-- When the `add_to_cart` loop returns early, the cart splits as the
prefix of non-matching entries, the first matching entry with its quantity
bumped by exactly 1, and the untouched suffix. -/
theorem incFirst_some (item_id : Nat) (cart cart2 : List CartEntry)
    (h : incFirst item_id cart = some cart2) :
    ∃ pre e post, cart = pre ++ e :: post ∧ e.id = item_id ∧
      (∀ e' ∈ pre, e'.id ≠ item_id) ∧
      cart2 = pre ++ { e with quantity := e.quantity + 1 } :: post := by
  induction cart generalizing cart2 with
  | nil => exact absurd h (by simp [incFirst])
  | cons e rest ih =>
    by_cases he : e.id = item_id
    · simp only [incFirst, if_pos he, Option.some.injEq] at h
      exact ⟨[], e, rest, rfl, he, by simp, h.symm⟩
    · simp only [incFirst, if_neg he, Option.map_eq_some'] at h
      obtain ⟨c, hc, hcart2⟩ := h
      obtain ⟨pre, x, post, hrest, hid, hpre, hx⟩ := ih c hc
      refine ⟨e :: pre, x, post, by rw [hrest, List.cons_append], hid, ?_, ?_⟩
      · intro y hy
        rcases List.mem_cons.mp hy with rfl | hy'
        · exact he
        · exact hpre y hy'
      · rw [← hcart2, hx]
        rfl

/-- The cart total distributes over list append. -/
theorem cartTotal_append (a b : List CartEntry) :
    cartTotal (a ++ b) = cartTotal a + cartTotal b := by
  simp [cartTotal]

/-- The cart total of a cons. -/
theorem cartTotal_cons (e : CartEntry) (rest : List CartEntry) :
    cartTotal (e :: rest) = e.price * (e.quantity : ℚ) + cartTotal rest := by
  simp [cartTotal]

/-! ### C5: add_to_cart -/

/-- C5: for every menu item on the menu and every cart with no duplicate
item ids, `add_to_cart` succeeds, the result still has no duplicate item
ids, and: if an entry with the item's id is already present, exactly that
(first) entry has its quantity bumped by exactly 1 and the total grows by
that entry's snapshotted price; otherwise one new entry with quantity 1 is
appended and the total grows by the item's menu price. -/
theorem add_to_cart_spec (s : Store) (cart : List CartEntry) (item_id : Nat)
    (item : MenuItem) (hfind : findMenuItem s item_id = some item)
    (hnd : (cart.map CartEntry.id).Nodup) :
    ∃ cart2, add_to_cart s cart item_id = some cart2 ∧
      (cart2.map CartEntry.id).Nodup ∧
      ((∃ e ∈ cart, e.id = item.id) →
        ∃ pre e post, cart = pre ++ e :: post ∧ e.id = item.id ∧
          (∀ e' ∈ pre, e'.id ≠ item.id) ∧
          cart2 = pre ++ { e with quantity := e.quantity + 1 } :: post ∧
          cartTotal cart2 = cartTotal cart + e.price) ∧
      ((∀ e ∈ cart, e.id ≠ item.id) →
        cart2 = cart ++ [{ id := item.id, name := item.name, price := item.price,
                           quantity := 1, image := item.image }] ∧
        cartTotal cart2 = cartTotal cart + item.price) := by
  unfold add_to_cart
  rw [hfind]
  dsimp only
  cases hInc : incFirst item.id cart with
  | some c =>
    obtain ⟨pre, e, post, hcart, hid, hpre, hc⟩ := incFirst_some item.id cart c hInc
    have htot : cartTotal c = cartTotal cart + e.price := by
      rw [hcart, hc, cartTotal_append, cartTotal_append, cartTotal_cons, cartTotal_cons]
      dsimp only
      push_cast
      ring
    refine ⟨c, rfl, ?_, fun _ => ⟨pre, e, post, hcart, hid, hpre, hc, htot⟩, ?_⟩
    · have hmap : c.map CartEntry.id = cart.map CartEntry.id := by
        rw [hcart, hc]
        simp
      rw [hmap]
      exact hnd
    · intro hni
      refine absurd hid (hni e ?_)
      rw [hcart]
      exact List.mem_append_right pre (List.mem_cons_self e post)
  | none =>
    have hni := not_mem_of_incFirst_none item.id cart hInc
    refine ⟨_, rfl, ?_, ?_, ?_⟩
    · rw [List.map_append]
      simp only [List.map_cons, List.map_nil]
      rw [List.nodup_append]
      refine ⟨hnd, List.nodup_singleton _, ?_⟩
      intro a ha hb
      rcases List.mem_singleton.mp hb with rfl
      obtain ⟨x, hx, hxid⟩ := List.mem_map.mp ha
      exact hni x hx hxid
    · intro hmem
      obtain ⟨e, he, heid⟩ := hmem
      exact absurd heid (hni e he)
    · intro _
      refine ⟨rfl, ?_⟩
      rw [cartTotal_append, cartTotal_cons]
      simp [cartTotal]

/-- Witness for C5: adding menu item 7 to a cart that already holds it
succeeds. -/
theorem add_to_cart_spec_witness :
    (add_to_cart ⟨[⟨7, "A", none, 5, none, 1⟩], [], [], 8, 1, 1⟩
        [⟨7, "A", 5, 1, none⟩] 7).isSome = true := by
  obtain ⟨c2, h1, -⟩ :=
    add_to_cart_spec ⟨[⟨7, "A", none, 5, none, 1⟩], [], [], 8, 1, 1⟩
      [⟨7, "A", 5, 1, none⟩] 7 ⟨7, "A", none, 5, none, 1⟩ (by decide) (by decide)
  rw [h1]
  rfl

/-! ### C6: every cart operation keeps quantities at least 1 -/

/-- The session-cart invariant: every entry's quantity is at least 1. -/
def CartOK (cart : List CartEntry) : Prop :=
  ∀ e ∈ cart, 1 ≤ e.quantity

/-- The `add_to_cart` loop preserves the quantity invariant. -/
theorem incFirst_cartOK (item_id : Nat) (cart c : List CartEntry)
    (hok : CartOK cart) (h : incFirst item_id cart = some c) : CartOK c := by
  obtain ⟨pre, e, post, hcart, -, -, hc⟩ := incFirst_some item_id cart c h
  intro x hx
  rw [hc] at hx
  rcases List.mem_append.mp hx with hx' | hx'
  · exact hok x (by rw [hcart]; exact List.mem_append_left _ hx')
  · rcases List.mem_cons.mp hx' with rfl | hx''
    · have he : 1 ≤ e.quantity :=
        hok e (by rw [hcart]; exact List.mem_append_right _ (List.mem_cons_self e post))
      dsimp only
      omega
    · exact hok x (by rw [hcart]; exact List.mem_append_right _ (List.mem_cons_of_mem e hx''))

/-- C6: whenever every entry of the cart has quantity at least 1, the same
holds after `add_to_cart` (for any item) and after `update_cart` (for any
index and any action) — in particular a decrease that would reach zero
deletes the entry instead of keeping it at zero. -/
theorem cart_ops_preserve_min_quantity (s : Store) (cart : List CartEntry)
    (item_id index : Nat) (action : Option String) (h : CartOK cart) :
    (∀ cart2, add_to_cart s cart item_id = some cart2 → CartOK cart2) ∧
    CartOK (update_cart cart index action).cart := by
  constructor
  · intro cart2 h2
    unfold add_to_cart at h2
    cases hfind : findMenuItem s item_id with
    | none =>
      rw [hfind] at h2
      exact absurd h2 (by simp)
    | some item =>
      rw [hfind] at h2
      dsimp only at h2
      cases hInc : incFirst item.id cart with
      | some c =>
        rw [hInc] at h2
        injection h2 with h3
        exact h3 ▸ incFirst_cartOK item.id cart c h hInc
      | none =>
        rw [hInc] at h2
        injection h2 with h3
        rw [← h3]
        intro x hx
        rcases List.mem_append.mp hx with hx' | hx'
        · exact h x hx'
        · rcases List.mem_singleton.mp hx' with rfl
          exact le_refl 1
  · unfold update_cart
    split
    case isFalse => exact h
    case isTrue hlt =>
      have hget : 1 ≤ (cart.get ⟨index, hlt⟩).quantity := h _ (cart.get_mem _ _)
      dsimp only
      split_ifs with h1 h2 h3 h4
      · intro x hx
        rcases List.mem_or_eq_of_mem_set hx with hx' | rfl
        · exact h x hx'
        · dsimp only
          omega
      · rw [eraseIdx_set_same]
        intro x hx
        exact h x (List.mem_of_mem_eraseIdx hx)
      · intro x hx
        rcases List.mem_or_eq_of_mem_set hx with hx' | rfl
        · exact h x hx'
        · dsimp only
          omega
      · intro x hx
        exact h x (List.mem_of_mem_eraseIdx hx)
      · exact h

/-- Witness for C6: decreasing a quantity-3 entry leaves it at quantity 2,
still at least 1. -/
theorem cart_ops_preserve_min_quantity_witness :
    (1 : Int) ≤ CartEntry.quantity
        { id := 1, name := "A", price := 5, quantity := 2, image := none } :=
  (cart_ops_preserve_min_quantity ⟨[], [], [], 1, 1, 1⟩
      [⟨1, "A", 5, 3, none⟩] 1 0 (some "decrease") (by unfold CartOK; decide)).2
    { id := 1, name := "A", price := 5, quantity := 2, image := none } (by decide)

end FoodOrdering
